import Mathlib

/-
Shallow embedding of the dynamic response formatter of
`src/OpenAlgo_xlwings_lite/main.py` (the `ResponseConfig` configuration,
`smart_format_value`, `get_display_label`, `sort_fields_by_priority`,
`detect_endpoint_type`, `process_api_response`, `format_key_value_data`,
`format_table_data`, `format_for_excel`, `format_error`), together with
theorems checking the specification's claims about it.

Modelling conventions:
  * JSON values decoded by `json.loads` are modelled by `JValue`.  Python
    ints are `JValue.int`; Python floats are `JValue.float` carrying an
    exact rational `PyNum` (numerator / positive denominator).  Non-finite
    floats (inf/nan) and binary rounding artefacts of IEEE doubles are out
    of scope: all concrete inputs used below are exactly representable.
  * Python dicts are association lists in insertion order (keys unique,
    as `json.loads` guarantees).
  * Operations that can raise in Python are embedded with `Except String`;
    the string is the Python exception rendered as text.  The `try/except`
    blocks inside `smart_format_value` catch their coercion failures, so
    that function is total.
  * `f"{x:.2f}"` style formatting is modelled by decimal round-half-to-even
    on the exact rational, which agrees with CPython on every value whose
    decimal form is exactly representable (all inputs used below).
-/

/-- An exact rational standing for a Python numeric value:
`num / den` with `den > 0` maintained by every constructor below. -/
structure PyNum where
  num : Int
  den : Nat
deriving DecidableEq, Repr

/-- Embed a Python int as a `PyNum`. -/
def PyNum.ofInt (n : Int) : PyNum := ⟨n, 1⟩

/-- `a <= b` on Python numbers (cross multiplication; denominators positive). -/
def PyNum.le (a b : PyNum) : Bool := decide (a.num * (b.den : Int) ≤ b.num * (a.den : Int))

/-- `a < b` on Python numbers. -/
def PyNum.lt (a b : PyNum) : Bool := decide (a.num * (b.den : Int) < b.num * (a.den : Int))

/-- Whether the Python number equals zero. -/
def PyNum.isZero (x : PyNum) : Bool := x.num = 0

/-- Whether the Python number is negative. -/
def PyNum.isNeg (x : PyNum) : Bool := decide (x.num < 0)

/-- Absolute value. -/
def PyNum.abs (x : PyNum) : PyNum := ⟨(x.num.natAbs : Int), x.den⟩

/-- Multiply by a natural scale factor. -/
def PyNum.scale (x : PyNum) (k : Nat) : PyNum := ⟨x.num * (k : Int), x.den⟩

/-- Mathematical floor of a Python number, as an integer. -/
def PyNum.floorInt (x : PyNum) : Int := x.num.fdiv (x.den : Int)

/-- Truncation toward zero, i.e. Python `int(float_value)`. -/
def PyNum.truncInt (x : PyNum) : Int := x.num.tdiv (x.den : Int)

/-- Round to the nearest integer, ties to even (the rounding CPython's
fixed-point `format` applies to the decimal value). -/
def PyNum.roundHalfEven (x : PyNum) : Int :=
  let f := x.floorInt
  let r2 : Int := 2 * (x.num - f * (x.den : Int))
  if r2 < (x.den : Int) then f
  else if (x.den : Int) < r2 then f + 1
  else if f % 2 = 0 then f else f + 1

/-- Left-pad the decimal digits of `n` with zeros to `width` characters. -/
def padZeros (width : Nat) (n : Nat) : String :=
  let s := toString n
  String.mk (List.replicate (width - s.length) '0') ++ s

/-- Insert a thousands separator after every three digits, counting from the
right; the input is the plain decimal digit string of a natural number. -/
def groupDigitsAux : List Char → Nat → List Char
  | [], _ => []
  | c :: t, cnt =>
      if cnt = 3 then ',' :: c :: groupDigitsAux t 1
      else c :: groupDigitsAux t (cnt + 1)

/-- Python's `,` format grouping on the decimal string of a natural number. -/
def groupDigits (s : String) : String :=
  String.mk ((groupDigitsAux s.data.reverse 0).reverse)

/-- Python `f"{x:.<prec>f}"` (no grouping): fixed-point with `prec` decimals. -/
def fmtFixed (prec : Nat) (x : PyNum) : String :=
  let scaleN := 10 ^ prec
  let m := (PyNum.roundHalfEven (x.abs.scale scaleN)).toNat
  (if x.isNeg then "-" else "") ++ toString (m / scaleN) ++ "." ++ padZeros prec (m % scaleN)

/-- Python `f"{x:,.2f}"`: two decimals with thousands separators. -/
def fmtComma2 (x : PyNum) : String :=
  let m := (PyNum.roundHalfEven (x.abs.scale 100)).toNat
  (if x.isNeg then "-" else "") ++ groupDigits (toString (m / 100)) ++ "." ++ padZeros 2 (m % 100)

/-- Python `f"{n:,}"` for an integer (callers only use it on values `>= 1000`). -/
def fmtCommaInt (n : Int) : String :=
  (if n < 0 then "-" else "") ++ groupDigits (toString n.natAbs)

/-- Decimal digits of the fractional part `r / den`, up to `fuel` digits,
stopping when the remainder is exhausted (so trailing zeros are dropped). -/
def fracDigitsAux (den : Nat) : Nat → Nat → List Char
  | _, 0 => []
  | r, fuel + 1 =>
      if r = 0 then []
      else
        let r10 := r * 10
        Char.ofNat (48 + r10 / den) :: fracDigitsAux den (r10 % den) fuel

/-- Python `repr`/`str` of a finite float whose value is the given rational;
exact for every value with a finite decimal expansion of at most 17 digits
(all floats appearing in this development). -/
def floatRepr (x : PyNum) : String :=
  let na := x.num.natAbs
  let ip := na / x.den
  let ds := fracDigitsAux x.den (na % x.den) 17
  (if x.isNeg then "-" else "") ++ toString ip ++ "." ++
    (if ds.isEmpty then "0" else String.mk ds)

/-- ASCII lower-casing of one character (`str.lower` restricted to the ASCII
field names and endpoint names this program manipulates). -/
def pyLowerChar (c : Char) : Char :=
  if 65 ≤ c.toNat ∧ c.toNat ≤ 90 then Char.ofNat (c.toNat + 32) else c

/-- ASCII upper-casing of one character. -/
def pyUpperChar (c : Char) : Char :=
  if 97 ≤ c.toNat ∧ c.toNat ≤ 122 then Char.ofNat (c.toNat - 32) else c

/-- Python `str.lower` (ASCII fragment). -/
def pyLower (s : String) : String := String.mk (s.data.map pyLowerChar)

/-- Whether a character is an ASCII letter. -/
def isAsciiAlpha (c : Char) : Bool :=
  (65 ≤ c.toNat ∧ c.toNat ≤ 90) ∨ (97 ≤ c.toNat ∧ c.toNat ≤ 122)

/-- Helper for `pyTitle`: the Bool records whether the previous character
was a letter. -/
def pyTitleAux : List Char → Bool → List Char
  | [], _ => []
  | c :: t, prevAlpha =>
      (if isAsciiAlpha c then (if prevAlpha then pyLowerChar c else pyUpperChar c) else c)
        :: pyTitleAux t (isAsciiAlpha c)

/-- Python `str.title` (ASCII fragment): capitalise the first letter of every
maximal letter run, lower-case the rest. -/
def pyTitle (s : String) : String := String.mk (pyTitleAux s.data false)

/-- Python `str.replace('_', ' ')`. -/
def replaceUnderscores (s : String) : String :=
  String.mk (s.data.map fun c => if c = '_' then ' ' else c)

/-- `needle` is a prefix of `hay` (character lists). -/
def charListStartsWith : List Char → List Char → Bool
  | _, [] => true
  | [], _ :: _ => false
  | a :: as, b :: bs => a = b && charListStartsWith as bs

/-- Python `needle in hay` on character lists (substring containment). -/
def charListHasSub : List Char → List Char → Bool
  | [], needle => needle.isEmpty
  | a :: t, needle => charListStartsWith (a :: t) needle || charListHasSub t needle

/-- Python `needle in hay` on strings. -/
def strHasSub (hay needle : String) : Bool := charListHasSub hay.data needle.data

/-- Python `hay.endswith(suffix)`. -/
def strEndsWith (hay suffix : String) : Bool :=
  charListStartsWith hay.data.reverse suffix.data.reverse

/-- Code-point lexicographic `<=` on character lists (Python string order). -/
def charListLe : List Char → List Char → Bool
  | [], _ => true
  | _ :: _, [] => false
  | a :: as, b :: bs => if a = b then charListLe as bs else decide (a < b)

/-- Python `s <= t` on strings (code-point lexicographic). -/
def strLeB (s t : String) : Bool := charListLe s.data t.data

/-- The propositional form of `strLeB`, used as the sort order. -/
def StrLe (s t : String) : Prop := strLeB s t = true

instance : DecidableRel StrLe := fun s t => by unfold StrLe; infer_instance

/-- Python `s.split(sep)` for a one-character separator. -/
def splitOnChar (sep : Char) : List Char → List (List Char)
  | [] => [[]]
  | c :: t =>
      let r := splitOnChar sep t
      if c = sep then [] :: r
      else
        match r with
        | h :: t2 => (c :: h) :: t2
        | [] => [[c]]

/-- Whether a character is an ASCII digit. -/
def isDigitChar (c : Char) : Bool := 48 ≤ c.toNat ∧ c.toNat ≤ 57

/-- Python whitespace stripped by `float(str)`. -/
def isPySpace (c : Char) : Bool :=
  c = ' ' || c = '\t' || c = '\n' || c = '\r' || c = '\x0b' || c = '\x0c'

/-- Numeric value of a list of ASCII digits. -/
def digitsVal (ds : List Char) : Nat := ds.foldl (fun a c => a * 10 + (c.toNat - 48)) 0

/-- Python `float(s)` on a string: optional sign, decimal digits with an
optional point, optional exponent; `None` when `float` would raise
`ValueError`.  (Underscore separators and inf/nan literals are out of
scope for this development.) -/
def pyFloatOfString? (s : String) : Option PyNum :=
  let cs := ((s.data.dropWhile isPySpace).reverse.dropWhile isPySpace).reverse
  let (sgn, cs1) : Int × List Char :=
    match cs with
    | '+' :: t => (1, t)
    | '-' :: t => (-1, t)
    | _ => (1, cs)
  let ip := cs1.takeWhile isDigitChar
  let cs2 := cs1.dropWhile isDigitChar
  let (fp, cs3) : List Char × List Char :=
    match cs2 with
    | '.' :: t => (t.takeWhile isDigitChar, t.dropWhile isDigitChar)
    | _ => ([], cs2)
  if ip.isEmpty && fp.isEmpty then none
  else
    let mantNum : Int := sgn * ((digitsVal ip * 10 ^ fp.length + digitsVal fp : Nat) : Int)
    let mantDen : Nat := 10 ^ fp.length
    match cs3 with
    | [] => some ⟨mantNum, mantDen⟩
    | e :: t =>
        if e = 'e' || e = 'E' then
          let (eneg, t1) : Bool × List Char :=
            match t with
            | '+' :: r => (false, r)
            | '-' :: r => (true, r)
            | _ => (false, t)
          let ed := t1.takeWhile isDigitChar
          let t2 := t1.dropWhile isDigitChar
          if ed.isEmpty || !t2.isEmpty then none
          else if eneg then some ⟨mantNum, mantDen * 10 ^ digitsVal ed⟩
          else some ⟨mantNum * ((10 ^ digitsVal ed : Nat) : Int), mantDen⟩
        else none

/-- A decoded JSON value as produced by Python's `json.loads`. -/
inductive JValue where
  | null
  | bool (b : Bool)
  | int (n : Int)
  | float (x : PyNum)
  | str (s : String)
  | arr (xs : List JValue)
  | obj (kvs : List (String × JValue))

/-- Python `isinstance(v, dict)`. -/
def JValue.isObj : JValue → Bool
  | .obj _ => true
  | _ => false

/-- Python `isinstance(v, list)`. -/
def JValue.isArr : JValue → Bool
  | .arr _ => true
  | _ => false

/-- Python truthiness of a JSON value. -/
def pyTruthy : JValue → Bool
  | .null => false
  | .bool b => b
  | .int n => n ≠ 0
  | .float x => !x.isZero
  | .str s => s ≠ ""
  | .arr xs => !xs.isEmpty
  | .obj kvs => !kvs.isEmpty

/-- The Python type name of a value (used in exception messages). -/
def pyTypeName : JValue → String
  | .null => "NoneType"
  | .bool _ => "bool"
  | .int _ => "int"
  | .float _ => "float"
  | .str _ => "str"
  | .arr _ => "list"
  | .obj _ => "dict"

/-- Python `float(value)`: `None` exactly when `float` would raise
`ValueError`/`TypeError` (both caught by the callers in `smart_format_value`). -/
def toFloat? : JValue → Option PyNum
  | .int n => some (PyNum.ofInt n)
  | .float x => some x
  | .bool b => some (PyNum.ofInt (if b then 1 else 0))
  | .str s => pyFloatOfString? s
  | _ => none

mutual
/-- Python `repr` of a JSON value (ASCII fragment, see `floatRepr`). -/
def pyRepr : JValue → String
  | .null => "None"
  | .bool b => if b then "True" else "False"
  | .int n => toString n
  | .float x => floatRepr x
  | .str s => "'" ++ s ++ "'"
  | .arr xs => "[" ++ pyReprList xs ++ "]"
  | .obj kvs => "\x7b" ++ pyReprObj kvs ++ "\x7d"
/-- `repr` of list elements, comma separated. -/
def pyReprList : List JValue → String
  | [] => ""
  | [v] => pyRepr v
  | v :: w :: rest => pyRepr v ++ ", " ++ pyReprList (w :: rest)
/-- `repr` of dict entries, comma separated. -/
def pyReprObj : List (String × JValue) → String
  | [] => ""
  | [(k, v)] => "'" ++ k ++ "': " ++ pyRepr v
  | (k, v) :: w :: rest => "'" ++ k ++ "': " ++ pyRepr v ++ ", " ++ pyReprObj (w :: rest)
end

/-- Python `str(value)`: like `repr` but a bare string for `str` input. -/
def pyStr : JValue → String
  | .str s => s
  | v => pyRepr v

/-- First value bound to `k` in an association list (Python dict lookup;
decoded JSON dicts never carry duplicate keys). -/
def dictGet : List (String × JValue) → String → Option JValue
  | [], _ => none
  | (a, v) :: rest, k => if a = k then some v else dictGet rest k

/-- Lookup in a static string-to-string table. -/
def tableGet : List (String × String) → String → Option String
  | [], _ => none
  | (a, v) :: rest, k => if a = k then some v else tableGet rest k

/-- `ResponseConfig.field_labels` (main.py lines 73-224), verbatim. -/
def field_labels : List (String × String) := [
  ("ltp", "Last Trade Price"),
  ("prev_close", "Previous Close"),
  ("pnl", "P&L"),
  ("pnl_percent", "P&L %"),
  ("orderid", "Order ID"),
  ("tradingsymbol", "Trading Symbol"),
  ("availablecash", "Available Cash"),
  ("utiliseddebits", "Used Debits"),
  ("utilisedpayout", "Used Payout"),
  ("m2mrealized", "Realized M2M"),
  ("m2munrealized", "Unrealized M2M"),
  ("collateral", "Collateral Value"),
  ("payin", "Pay In Amount"),
  ("payout", "Pay Out Amount"),
  ("branchcode", "Branch Code"),
  ("clientcode", "Client Code"),
  ("triggerprice", "Trigger Price"),
  ("averageprice", "Average Price"),
  ("remainingquantity", "Remaining Qty"),
  ("filledquantity", "Filled Qty"),
  ("unfilledshares", "Unfilled Qty"),
  ("totalbuyquantity", "Total Buy Qty"),
  ("totalsellquantity", "Total Sell Qty"),
  ("pendingquantity", "Pending Qty"),
  ("rejectedquantity", "Rejected Qty"),
  ("cancelledquantity", "Cancelled Qty"),
  ("disclosed_quantity", "Disclosed Qty"),
  ("order_id", "Order ID"),
  ("parent_order_id", "Parent Order ID"),
  ("order_status", "Order Status"),
  ("order_type", "Order Type"),
  ("order_side", "Order Side"),
  ("bid_price", "Bid Price"),
  ("ask_price", "Ask Price"),
  ("bid_qty", "Bid Quantity"),
  ("ask_qty", "Ask Quantity"),
  ("bid_orders", "Bid Orders"),
  ("ask_orders", "Ask Orders"),
  ("volume", "Volume"),
  ("turnover", "Turnover"),
  ("last_price", "Last Price"),
  ("last_qty", "Last Quantity"),
  ("total_traded_volume", "Total Volume"),
  ("total_traded_value", "Total Value"),
  ("lower_circuit", "Lower Circuit"),
  ("upper_circuit", "Upper Circuit"),
  ("percent_change", "Change %"),
  ("price_change", "Price Change"),
  ("day_high", "Day High"),
  ("day_low", "Day Low"),
  ("year_high", "52W High"),
  ("year_low", "52W Low"),
  ("open", "Open"),
  ("high", "High"),
  ("low", "Low"),
  ("close", "Close"),
  ("prev_open", "Prev Open"),
  ("prev_high", "Prev High"),
  ("prev_low", "Prev Low"),
  ("strikeprice", "Strike Price"),
  ("strike_price", "Strike Price"),
  ("optiontype", "Option Type"),
  ("option_type", "Option Type"),
  ("expiry", "Expiry Date"),
  ("expiry_date", "Expiry Date"),
  ("days_to_expiry", "Days to Expiry"),
  ("underlying", "Underlying"),
  ("underlying_price", "Underlying Price"),
  ("implied_volatility", "IV"),
  ("delta", "Delta"),
  ("gamma", "Gamma"),
  ("theta", "Theta"),
  ("vega", "Vega"),
  ("rho", "Rho"),
  ("net_quantity", "Net Quantity"),
  ("buy_quantity", "Buy Quantity"),
  ("sell_quantity", "Sell Quantity"),
  ("buy_value", "Buy Value"),
  ("sell_value", "Sell Value"),
  ("buy_price", "Buy Price"),
  ("sell_price", "Sell Price"),
  ("unrealized_pnl", "Unrealized P&L"),
  ("realized_pnl", "Realized P&L"),
  ("mtm", "Mark to Market"),
  ("day_pnl", "Day P&L"),
  ("day_change", "Day Change"),
  ("day_change_percent", "Day Change %"),
  ("exchange", "Exchange"),
  ("segment", "Segment"),
  ("instrument", "Instrument"),
  ("instrument_type", "Instrument Type"),
  ("lot_size", "Lot Size"),
  ("tick_size", "Tick Size"),
  ("isin", "ISIN"),
  ("symbol", "Symbol"),
  ("token", "Token"),
  ("exchange_token", "Exchange Token"),
  ("timestamp", "Timestamp"),
  ("order_time", "Order Time"),
  ("update_time", "Update Time"),
  ("trade_time", "Trade Time"),
  ("last_update_time", "Last Update"),
  ("market_open_time", "Market Open"),
  ("market_close_time", "Market Close"),
  ("status", "Status"),
  ("message", "Message"),
  ("error_code", "Error Code"),
  ("error_message", "Error Message"),
  ("rejection_reason", "Rejection Reason"),
  ("validity", "Validity"),
  ("product", "Product"),
  ("strategy", "Strategy"),
  ("tag", "Tag"),
  ("broker", "Broker"),
  ("account_id", "Account ID"),
  ("user_id", "User ID"),
  ("client_id", "Client ID"),
  ("broker_order_id", "Broker Order ID"),
  ("exchange_order_id", "Exchange Order ID"),
  ("multiplier", "Multiplier"),
  ("margin_required", "Margin Required"),
  ("margin_blocked", "Margin Blocked"),
  ("margin_available", "Margin Available"),
  ("exposure", "Exposure"),
  ("span_margin", "SPAN Margin"),
  ("elm_margin", "ELM Margin"),
  ("var_margin", "VAR Margin")]

/-- `ResponseConfig.priority_fields` (main.py lines 227-251), verbatim. -/
def priority_fields : List String := [
  "symbol", "tradingsymbol", "orderid", "order_id",
  "ltp", "last_price", "price", "averageprice", "triggerprice",
  "quantity", "remainingquantity", "filledquantity", "net_quantity",
  "status", "order_status", "action", "order_side",
  "pnl", "unrealized_pnl", "realized_pnl", "availablecash",
  "bid_price", "ask_price", "volume", "turnover",
  "timestamp", "order_time", "expiry",
  "exchange", "product", "instrument_type"]

/-- An entry of `ResponseConfig.endpoint_schemas`: a Python dict with the
optional keys `format`, `title`, `title_field`, `sort_by`. -/
structure Schema where
  format : Option String
  title : Option String
  title_field : Option String
  sort_by : Option String
deriving DecidableEq, Repr

/-- The empty schema dict `{}`. -/
def Schema.empty : Schema := ⟨none, none, none, none⟩

/-- `ResponseConfig.endpoint_schemas` (main.py lines 254-261), verbatim. -/
def endpoint_schemas : List (String × Schema) := [
  ("quotes", ⟨some "key_value", none, some "symbol", none⟩),
  ("funds", ⟨some "key_value", some "Account Funds", none, none⟩),
  ("orderbook", ⟨some "table", none, none, some "timestamp"⟩),
  ("tradebook", ⟨some "table", none, none, some "timestamp"⟩),
  ("positionbook", ⟨some "table", none, none, none⟩),
  ("holdings", ⟨some "table", none, none, none⟩)]

/-- Lookup in `endpoint_schemas`. -/
def schemaTableGet : List (String × Schema) → String → Option Schema
  | [], _ => none
  | (a, v) :: rest, k => if a = k then some v else schemaTableGet rest k

/-- `ResponseConfig.endpoint_schemas.get(endpoint_type, {})`. -/
def schemaGet (endpoint_type : String) : Schema :=
  (schemaTableGet endpoint_schemas endpoint_type).getD Schema.empty

/-- The `timestamp_fields` list of `smart_format_value` (main.py 434-438). -/
def timestamp_fields : List String := [
  "timestamp", "date", "time", "order_time", "update_time",
  "trade_time", "last_update_time", "market_open_time",
  "market_close_time", "expiry_date"]

/-- The `price_fields` list of `smart_format_value` (main.py 458-466). -/
def price_fields : List String := [
  "price", "ltp", "high", "low", "open", "close", "trigger_price",
  "triggerprice", "averageprice", "last_price", "prev_close",
  "bid_price", "ask_price", "buy_price", "sell_price",
  "strikeprice", "strike_price", "underlying_price",
  "day_high", "day_low", "year_high", "year_low",
  "prev_open", "prev_high", "prev_low", "upper_circuit", "lower_circuit",
  "price_change", "day_change"]

/-- The `currency_fields` list of `smart_format_value` (main.py 475-481). -/
def currency_fields : List String := [
  "availablecash", "utiliseddebits", "utilisedpayout",
  "collateral", "payin", "payout", "turnover",
  "buy_value", "sell_value", "total_traded_value",
  "margin_required", "margin_blocked", "margin_available",
  "span_margin", "elm_margin", "var_margin", "exposure"]

/-- The `quantity_fields` list of `smart_format_value` (main.py 493-499). -/
def quantity_fields : List String := [
  "quantity", "remainingquantity", "filledquantity", "unfilledshares",
  "totalbuyquantity", "totalsellquantity", "pendingquantity",
  "rejectedquantity", "cancelledquantity", "disclosed_quantity",
  "bid_qty", "ask_qty", "last_qty", "volume", "total_traded_volume",
  "net_quantity", "buy_quantity", "sell_quantity", "lot_size"]

/-- The `percentage_fields` list of `smart_format_value` (main.py 511-514). -/
def percentage_fields : List String := [
  "pnl_percent", "percent_change", "day_change_percent",
  "change_percent", "implied_volatility"]

/-- The `greek_fields` list of `smart_format_value` (main.py 524). -/
def greek_fields : List String := ["delta", "gamma", "theta", "vega", "rho"]

/-- The `special_int_fields` list of `smart_format_value` (main.py 533). -/
def special_int_fields : List String :=
  ["days_to_expiry", "bid_orders", "ask_orders", "multiplier"]

/-- Gregorian civil date from a day count since 1970-01-01 (non-negative),
the standard era-based conversion. -/
def civilFromDays (z : Nat) : Nat × Nat × Nat :=
  let z' := z + 719468
  let era := z' / 146097
  let doe := z' % 146097
  let yoe := (doe - doe / 1460 + doe / 36524 - doe / 146096) / 365
  let y := yoe + era * 400
  let doy := doe - (365 * yoe + yoe / 4 - yoe / 100)
  let mp := (5 * doy + 2) / 153
  let d := doy - (153 * mp + 2) / 5 + 1
  let mo := if mp < 10 then mp + 3 else mp - 9
  (if mo ≤ 2 then y + 1 else y, mo, d)

/-- `datetime.fromtimestamp(t).strftime('%Y-%m-%d %H:%M:%S')` for a whole
number of epoch seconds, at UTC offset zero (the host timezone that
`fromtimestamp` actually applies is environment state outside this model;
no claim depends on the rendered instant). -/
def epochToStr (t : Nat) : String :=
  let days := t / 86400
  let rem := t % 86400
  let (y, mo, d) := civilFromDays days
  padZeros 4 y ++ "-" ++ padZeros 2 mo ++ "-" ++ padZeros 2 d ++ " " ++
    padZeros 2 (rem / 3600) ++ ":" ++ padZeros 2 (rem % 3600 / 60) ++ ":" ++ padZeros 2 (rem % 60)

/-- `datetime.fromtimestamp(value).strftime(ResponseConfig.timestamp_format)`;
`none` models the `ValueError`/`OSError`/`OverflowError` raised outside the
representable range, which the caller catches and treats as fall-through. -/
def fromtimestampStr? (x : PyNum) : Option String :=
  let secs := x.floorInt
  if 0 ≤ secs ∧ secs < 253402300800 then some (epochToStr secs.toNat) else none

/-- The timestamp block of `smart_format_value` (main.py 433-444): applies
when the lowered key is a timestamp field and the value is `int`/`float`
(Python counts `bool` as `int`); conversion failure is caught and falls
through. -/
def ruleTimestamp (k : String) (v : JValue) : Option String :=
  if timestamp_fields.contains k then
    match v with
    | .int n => fromtimestampStr? (PyNum.ofInt n)
    | .float x => fromtimestampStr? x
    | .bool b => fromtimestampStr? (PyNum.ofInt (if b then 1 else 0))
    | _ => none
  else none

/-- The date-string block of `smart_format_value` (main.py 446-455). -/
def ruleExpiry (k : String) (v : JValue) : Option String :=
  if k = "expiry" || k = "expiry_date" then
    match v with
    | .str s =>
        if s.length = 10 && s.data.count '-' = 2 then some s
        else if s.length = 8 && s.data.all isDigitChar then
          some (String.mk (s.data.take 4) ++ "-" ++ String.mk ((s.data.drop 4).take 2) ++ "-" ++
            String.mk ((s.data.drop 6).take 2))
        else none
    | _ => none
  else none

/-- The price block of `smart_format_value` (main.py 457-472). -/
def rulePrice (k : String) (v : JValue) : Option String :=
  if price_fields.contains k then
    (toFloat? v).map fun q => if !q.isZero then fmtFixed 2 q else "0.00"
  else none

/-- The currency block of `smart_format_value` (main.py 474-490): thousands
separators exactly when the (signed) value is `>= 10000`. -/
def ruleCurrency (k : String) (v : JValue) : Option String :=
  if currency_fields.contains k then
    (toFloat? v).map fun q =>
      if PyNum.le ⟨10000, 1⟩ q then fmtComma2 q
      else if !q.isZero then fmtFixed 2 q else "0.00"
  else none

/-- The quantity block of `smart_format_value` (main.py 492-508). -/
def ruleQuantity (k : String) (v : JValue) : Option String :=
  if quantity_fields.contains k then
    (toFloat? v).map fun q =>
      let n := q.truncInt
      if 1000 ≤ n then fmtCommaInt n else toString n
  else none

/-- The percentage block of `smart_format_value` (main.py 510-521). -/
def rulePercent (k : String) (v : JValue) : Option String :=
  if strHasSub k "percent" || strEndsWith k "_pct" || percentage_fields.contains k then
    (toFloat? v).map fun q => fmtFixed 2 q ++ "%"
  else none

/-- The Greeks block of `smart_format_value` (main.py 523-530). -/
def ruleGreek (k : String) (v : JValue) : Option String :=
  if greek_fields.contains k then (toFloat? v).map (fmtFixed 4) else none

/-- The special-integer block of `smart_format_value` (main.py 532-539). -/
def ruleSpecialInt (k : String) (v : JValue) : Option String :=
  if special_int_fields.contains k then (toFloat? v).map (fun q => toString q.truncInt)
  else none

/-- The guard `value is None or value == ""` of `smart_format_value`
(main.py 430): only `None` and the empty string compare true. -/
def isEmptyish : JValue → Bool
  | .null => true
  | .str s => s = ""
  | _ => false

/-- `smart_format_value` (main.py 428-541): the early empty-value return,
then the rule cascade in source order, then `str(value)`. -/
def smart_format_value (key : String) (value : JValue) : String :=
  if isEmptyish value then ""
  else
    let k := pyLower key
    match ruleTimestamp k value with
    | some s => s
    | none =>
    match ruleExpiry k value with
    | some s => s
    | none =>
    match rulePrice k value with
    | some s => s
    | none =>
    match ruleCurrency k value with
    | some s => s
    | none =>
    match ruleQuantity k value with
    | some s => s
    | none =>
    match rulePercent k value with
    | some s => s
    | none =>
    match ruleGreek k value with
    | some s => s
    | none =>
    match ruleSpecialInt k value with
    | some s => s
    | none => pyStr value

/-- `get_display_label` (main.py 543-545). -/
def get_display_label (field_name : String) : String :=
  (tableGet field_labels field_name).getD (pyTitle (replaceUnderscores field_name))

/-- `sort_fields_by_priority` (main.py 547-552): priority fields present in
the input, in priority order, then the remaining fields sorted. -/
def sort_fields_by_priority (fields : List String) : List String :=
  priority_fields.filter (fun f => fields.contains f) ++
    List.insertionSort StrLe (fields.filter (fun f => !priority_fields.contains f))

/-- `detect_endpoint_type` (main.py 416-426). -/
def detect_endpoint_type (endpoint : String) : String :=
  if endpoint = "" then "unknown"
  else
    let parts := splitOnChar '/' endpoint.data
    if 2 ≤ parts.length then pyLower (String.mk (parts.getLastD []))
    else "unknown"

/-- `format_error` (main.py 711-713): `[[f"Error: <message>"]]`. -/
def format_error (message : JValue) : List (List String) :=
  [["Error: " ++ pyStr message]]

/-- The title computation of `format_key_value_data` (main.py 606-617). -/
def kv_title (kvs : List (String × JValue)) (endpoint_type custom_title : String) : String :=
  if custom_title ≠ "" then custom_title
  else
    let schema := schemaGet endpoint_type
    match schema.title with
    | some t => t
    | none =>
      match schema.title_field with
      | some tf =>
          if (kvs.map Prod.fst).contains tf then
            let symbol := (dictGet kvs tf).getD (.str "")
            let exchange := (dictGet kvs "exchange").getD (.str "")
            if pyTruthy exchange then pyStr symbol ++ " (" ++ pyStr exchange ++ ")"
            else pyStr symbol
          else pyTitle endpoint_type ++ " Data"
      | none => pyTitle endpoint_type ++ " Data"

/-- The dict branch of `format_key_value_data` (main.py 606-630): title,
priority-ordered fields, header row, one `[label, value]` row per field. -/
def format_key_value_obj (kvs : List (String × JValue))
    (endpoint_type custom_title : String) : List (List String) :=
  let title := kv_title kvs endpoint_type custom_title
  let fields := sort_fields_by_priority (kvs.map Prod.fst)
  (if title ≠ "" then [title, "Value"] else ["Field", "Value"]) ::
    fields.map fun f => [get_display_label f, smart_format_value f ((dictGet kvs f).getD .null)]

/-- `format_key_value_data` (main.py 598-630): non-dict data is unwrapped to
its first element when it is a non-empty list headed by a dict, else an
explicit format-error row. -/
def format_key_value_data (data : JValue) (endpoint_type custom_title : String) :
    List (List String) :=
  match data with
  | .obj kvs => format_key_value_obj kvs endpoint_type custom_title
  | .arr (.obj kvs :: _) => format_key_value_obj kvs endpoint_type custom_title
  | _ => [["Invalid data format for key-value display"]]

/-- Keys of a dict value (empty for non-dicts), i.e. `item.keys()`. -/
def jKeys : JValue → List String
  | .obj kvs => kvs.map Prod.fst
  | _ => []

/-- The union of field names over the records of a table (main.py 644-648).
Python collects them into a `set` whose iteration order is unspecified; the
first-seen-order dedup below is one representative ordering, and
`sort_fields_by_priority` is proved below to be invariant under reordering
of its duplicate-free input, so the choice is observationally irrelevant. -/
def collectFields (items : List JValue) : List String :=
  (items.flatMap jKeys).dedup

/-- One table row for one record (main.py 658-664): `item.get(field, "")`
then `smart_format_value` per ordered field. -/
def tableRowOf (ordered : List String) (item : JValue) : List String :=
  ordered.map fun f => smart_format_value f ((dictGet (match item with | .obj kvs => kvs | _ => []) f).getD (.str ""))

/-- The row loop of `format_table_data` (main.py 657-664).  A non-dict
element reaches `item.get` and raises `AttributeError`. -/
def buildRows (ordered : List String) : List JValue → Except String (List (List String))
  | [] => .ok []
  | item :: rest =>
      if item.isObj then
        match buildRows ordered rest with
        | .ok rs => .ok (tableRowOf ordered item :: rs)
        | .error e => .error e
      else .error ("AttributeError: '" ++ pyTypeName item ++ "' object has no attribute 'get'")

/-- The descending stable sort of the data rows (main.py 667-672):
`sorted(rows, key=lambda x: x[field_index], reverse=True)`. -/
def sortRowsDesc (idx : Nat) (rows : List (List String)) : List (List String) :=
  List.insertionSort (fun a b => StrLe (b.getD idx "") (a.getD idx "")) rows

/-- `if schema and 'sort_by' in schema` (main.py 667-672): a schema dict is
truthy only when non-empty, so the guard is equivalent to it carrying a
`sort_by` entry; the data rows are then sorted descending by that column
when it is among the ordered fields. -/
def applySortBy (ordered : List String) (schema : Option Schema)
    (body : List (List String)) : List (List String) :=
  match schema with
  | some sch =>
      match sch.sort_by with
      | some sf =>
          if ordered.contains sf then sortRowsDesc (ordered.indexOf sf) body else body
      | none => body
  | none => body

/-- `format_table_data` (main.py 632-674). -/
def format_table_data (data : JValue) (_endpoint_type : String) (schema : Option Schema) :
    Except String (List (List String)) :=
  match data with
  | .arr items =>
      match items with
      | [] => .ok [["No data available"]]
      | x :: _ =>
          if !x.isObj then .ok (["Items"] :: items.map fun it => [pyStr it])
          else
            let ordered := sort_fields_by_priority (collectFields items)
            match buildRows ordered items with
            | .error e => .error e
            | .ok body => .ok (ordered.map get_display_label :: applySortBy ordered schema body)
  | _ => .ok [["Expected list data for table format"]]

/-- `format_for_excel` (main.py 676-705) with default arguments (the only
call reached from `process_api_response` passes no headers; the pandas
branch is unreachable for decoded JSON input). -/
def format_for_excel (data : JValue) : Except String (List (List String)) :=
  match data with
  | .obj kvs => .ok (kvs.map fun kv => [kv.fst, smart_format_value kv.fst kv.snd])
  | .arr (x :: xs) =>
      if x.isObj then format_table_data (.arr (x :: xs)) "" none
      else .ok ((x :: xs).map fun it => [pyStr it])
  | _ => .ok [[pyStr data]]

/-- Python `"error" in response` (main.py 566): key membership for dicts,
substring test for strings, element equality for lists, `TypeError`
otherwise. -/
def pyContainsError : JValue → Except String Bool
  | .obj kvs => .ok ((kvs.map Prod.fst).contains "error")
  | .str s => .ok (strHasSub s "error")
  | .arr xs => .ok (xs.any fun v => match v with | .str s => s = "error" | _ => false)
  | v => .error ("TypeError: argument of type '" ++ pyTypeName v ++ "' is not iterable")

/-- Python `response["error"]` (main.py 567) for a value that passed the
membership test; string/list subscription with a string key raises. -/
def pyIndexError : JValue → Except String JValue
  | .obj kvs => .ok ((dictGet kvs "error").getD .null)
  | .str _ => .error "TypeError: string indices must be integers"
  | v => .error ("TypeError: " ++ pyTypeName v ++ " indices must be integers")

/-- Python `response.get("data", response)` (main.py 570): only dicts have
`.get`. -/
def pyGetData : JValue → Except String JValue
  | .obj kvs => .ok ((dictGet kvs "data").getD (.obj kvs))
  | v => .error ("AttributeError: '" ++ pyTypeName v ++ "' object has no attribute 'get'")

/-- `process_api_response` (main.py 554-596).  `preferred_format` is the
mutable `ResponseConfig.preferred_format` class attribute read at line 579,
made an explicit argument. -/
def process_api_response (preferred_format : String) (response : JValue)
    (endpoint custom_title : String) : Except String (List (List String)) :=
  match pyContainsError response with
  | .error e => .error e
  | .ok true =>
      match pyIndexError response with
      | .error e => .error e
      | .ok m => .ok (format_error m)
  | .ok false =>
      match pyGetData response with
      | .error e => .error e
      | .ok data0 =>
          if !pyTruthy data0 then .ok [["No data received"]]
          else
            let endpoint_type := detect_endpoint_type endpoint
            let schema := schemaGet endpoint_type
            let ft0 := schema.format.getD preferred_format
            let format_type := if ft0 = "auto" then (if data0.isArr then "table" else "key_value") else ft0
            let data :=
              match data0 with
              | .arr [x] => if x.isObj && format_type = "key_value" then x else data0
              | _ => data0
            if format_type = "key_value" then
              .ok (format_key_value_data data endpoint_type custom_title)
            else if format_type = "table" then
              format_table_data data endpoint_type (some schema)
            else format_for_excel data

/-- The spec's description of the key-value title, with the two corrections
the code forces: a space before the parenthesised exchange, and the bare
value whenever the `exchange` entry is absent or falsy (not only absent). -/
def specTitle (kvs : List (String × JValue)) (endpoint_type custom_title : String) : String :=
  if custom_title ≠ "" then custom_title
  else
    match (schemaGet endpoint_type).title with
    | some t => t
    | none =>
      match (schemaGet endpoint_type).title_field with
      | some tf =>
          if (kvs.map Prod.fst).contains tf then
            let v := (dictGet kvs tf).getD (.str "")
            let ex := (dictGet kvs "exchange").getD (.str "")
            if pyTruthy ex then pyStr v ++ " (" ++ pyStr ex ++ ")" else pyStr v
          else pyTitle endpoint_type ++ " Data"
      | none => pyTitle endpoint_type ++ " Data"

/-- The shapes `format_key_value_data` accepts, per the corrected claim: a
dict, or a non-empty list whose first element is a dict (unwrapped to that
element); everything else draws the format-error row. -/
def kvAccepted : JValue → Option JValue
  | .obj kvs => some (.obj kvs)
  | .arr (.obj kvs :: _) => some (.obj kvs)
  | _ => none

theorem charListLe_total : ∀ as bs : List Char,
    charListLe as bs = true ∨ charListLe bs as = true := by
  intro as
  induction as with
  | nil => intro bs; left; rfl
  | cons a as ih =>
      intro bs
      cases bs with
      | nil => right; rfl
      | cons b bs =>
          by_cases hab : a = b
          · subst hab
            simpa [charListLe] using ih bs
          · rcases lt_or_gt_of_ne hab with h | h
            · left; simp [charListLe, hab, h]
            · right; simp [charListLe, Ne.symm hab, h]

theorem charListLe_trans : ∀ as bs cs : List Char,
    charListLe as bs = true → charListLe bs cs = true → charListLe as cs = true := by
  intro as
  induction as with
  | nil => intro bs cs _ _; rfl
  | cons a as ih =>
      intro bs cs h1 h2
      cases bs with
      | nil => simp [charListLe] at h1
      | cons b bs =>
          cases cs with
          | nil => simp [charListLe] at h2
          | cons c cs =>
              by_cases hab : a = b
              · subst hab
                simp only [charListLe, if_pos rfl] at h1
                by_cases hbc : a = c
                · subst hbc
                  simp only [charListLe, if_pos rfl] at h2 ⊢
                  exact ih bs cs h1 h2
                · simp only [charListLe, if_neg hbc] at h2 ⊢
                  exact h2
              · simp only [charListLe, if_neg hab, decide_eq_true_iff] at h1
                by_cases hbc : b = c
                · subst hbc
                  simp only [charListLe, if_neg hab, decide_eq_true_iff]
                  exact h1
                · simp only [charListLe, if_neg hbc, decide_eq_true_iff] at h2
                  have hac : a < c := lt_trans h1 h2
                  have : a ≠ c := ne_of_lt hac
                  simp [charListLe, if_neg this, decide_eq_true_iff, hac]

theorem charListLe_antisymm : ∀ as bs : List Char,
    charListLe as bs = true → charListLe bs as = true → as = bs := by
  intro as
  induction as with
  | nil =>
      intro bs h1 h2
      cases bs with
      | nil => rfl
      | cons b bs => simp [charListLe] at h2
  | cons a as ih =>
      intro bs h1 h2
      cases bs with
      | nil => simp [charListLe] at h1
      | cons b bs =>
          by_cases hab : a = b
          · subst hab
            simp only [charListLe, if_pos rfl] at h1 h2
            rw [ih bs h1 h2]
          · simp only [charListLe, if_neg hab, decide_eq_true_iff] at h1
            simp only [charListLe, if_neg (Ne.symm hab), decide_eq_true_iff] at h2
            exact absurd h2 (lt_asymm h1)

instance : IsTotal String StrLe :=
  ⟨fun s t => charListLe_total s.data t.data⟩

instance : IsTrans String StrLe :=
  ⟨fun s t u h1 h2 => charListLe_trans s.data t.data u.data h1 h2⟩

instance : IsAntisymm String StrLe :=
  ⟨fun s t h1 h2 => String.ext (charListLe_antisymm s.data t.data h1 h2)⟩

theorem priority_fields_nodup : priority_fields.Nodup := by decide

/-- The priority prefix of `sort_fields_by_priority` is a permutation of the
input's priority members. -/
theorem sfbp_prefix_perm (l : List String) (h : l.Nodup) :
    (priority_fields.filter fun f => l.contains f).Perm
      (l.filter fun f => priority_fields.contains f) := by
  rw [List.perm_ext_iff_of_nodup (priority_fields_nodup.filter _) (h.filter _)]
  intro a
  simp only [List.mem_filter, List.contains, List.elem_iff]
  tauto

/-- `sort_fields_by_priority` permutes its (duplicate-free) input: no field
is lost or invented. -/
theorem sfbp_perm (l : List String) (h : l.Nodup) :
    (sort_fields_by_priority l).Perm l := by
  unfold sort_fields_by_priority
  have h2 := List.perm_insertionSort StrLe (l.filter fun f => !priority_fields.contains f)
  exact ((sfbp_prefix_perm l h).append h2).trans
    (List.filter_append_perm (fun f => priority_fields.contains f) l)

theorem sfbp_length (l : List String) (h : l.Nodup) :
    (sort_fields_by_priority l).length = l.length :=
  (sfbp_perm l h).length_eq

/-- `sort_fields_by_priority` depends only on the membership of its
duplicate-free input, not on its order. -/
theorem sfbp_congr (l₁ l₂ : List String) (h₁ : l₁.Nodup) (h₂ : l₂.Nodup)
    (hm : ∀ x, x ∈ l₁ ↔ x ∈ l₂) :
    sort_fields_by_priority l₁ = sort_fields_by_priority l₂ := by
  unfold sort_fields_by_priority
  have hc : ∀ x : String, l₁.contains x = l₂.contains x := by
    intro x
    have := hm x
    by_cases hx : x ∈ l₁
    · rw [List.contains, List.contains, List.elem_iff.mpr hx, List.elem_iff.mpr (this.mp hx)]
    · have hx2 : x ∉ l₂ := fun h => hx (this.mpr h)
      rw [List.contains, List.contains]
      rw [Bool.eq_iff_iff]
      simp [List.elem_iff, hx, hx2]
  have e1 : (priority_fields.filter fun f => l₁.contains f)
      = priority_fields.filter fun f => l₂.contains f :=
    List.filter_congr fun x _ => hc x
  have hperm : (l₁.filter fun f => !priority_fields.contains f).Perm
      (l₂.filter fun f => !priority_fields.contains f) := by
    rw [List.perm_ext_iff_of_nodup (h₁.filter _) (h₂.filter _)]
    intro a
    simp only [List.mem_filter]
    rw [hm a]
  have e2 : List.insertionSort StrLe (l₁.filter fun f => !priority_fields.contains f)
      = List.insertionSort StrLe (l₂.filter fun f => !priority_fields.contains f) := by
    refine List.eq_of_perm_of_sorted ?_ (List.sorted_insertionSort _ _) (List.sorted_insertionSort _ _)
    exact ((List.perm_insertionSort _ _).trans hperm).trans (List.perm_insertionSort _ _).symm
  rw [e1, e2]

deriving instance DecidableEq for Except

/-- The rule cascade of `smart_format_value` after the currency block, used
to express that a failed currency coercion falls through unchanged. -/
def laterRulesAfterCurrency (k : String) (v : JValue) : String :=
  match ruleQuantity k v with
  | some s => s
  | none =>
  match rulePercent k v with
  | some s => s
  | none =>
  match ruleGreek k v with
  | some s => s
  | none =>
  match ruleSpecialInt k v with
  | some s => s
  | none => pyStr v

theorem sfv_empty (f : String) : smart_format_value f (.str "") = "" := rfl

theorem dictGet_eq_none (kvs : List (String × JValue)) (k : String)
    (h : k ∉ kvs.map Prod.fst) : dictGet kvs k = none := by
  induction kvs with
  | nil => rfl
  | cons kv rest ih =>
      simp only [List.map_cons, List.mem_cons] at h
      push_neg at h
      simp only [dictGet, if_neg (Ne.symm h.1)]
      exact ih h.2

theorem dictGet_some_contains (kvs : List (String × JValue)) (k : String) (v : JValue)
    (h : dictGet kvs k = some v) : (kvs.map Prod.fst).contains k = true := by
  induction kvs with
  | nil => simp [dictGet] at h
  | cons kv rest ih =>
      by_cases hk : kv.fst = k
      · simp [List.contains, List.elem_iff, hk]
      · simp only [dictGet, if_neg hk] at h
        have := ih h
        simp only [List.contains, List.elem_iff] at this ⊢
        simp [this]

theorem buildRows_ok (ordered : List String) (items : List JValue)
    (h : ∀ it ∈ items, it.isObj = true) :
    buildRows ordered items = .ok (items.map (tableRowOf ordered)) := by
  induction items with
  | nil => rfl
  | cons x rest ih =>
      have hx : x.isObj = true := h x (List.mem_cons_self x rest)
      have hr : buildRows ordered rest = .ok (rest.map (tableRowOf ordered)) :=
        ih fun it hit => h it (List.mem_cons_of_mem x hit)
      simp [buildRows, hx, hr]

theorem tableRowOf_missing (ordered : List String) (it : JValue) (i : Nat) (f : String)
    (hi : ordered[i]? = some f) (hf : f ∉ jKeys it) :
    (tableRowOf ordered it)[i]? = some "" := by
  unfold tableRowOf
  rw [List.getElem?_map, hi]
  cases it with
  | obj kvs =>
      simp only [jKeys] at hf
      simp [dictGet_eq_none kvs f hf, sfv_empty]
  | null => rfl
  | bool b => rfl
  | int n => rfl
  | float x => rfl
  | str s => rfl
  | arr xs => rfl

theorem applySortBy_perm (ordered : List String) (sch : Option Schema)
    (body : List (List String)) : (applySortBy ordered sch body).Perm body := by
  cases sch with
  | none => exact List.Perm.refl _
  | some s =>
      cases hsb : s.sort_by with
      | none =>
          simp only [applySortBy, hsb]
          exact List.Perm.refl _
      | some sf =>
          by_cases hin : ordered.contains sf = true
          · simp only [applySortBy, hsb, if_pos hin]
            exact List.perm_insertionSort _ _
          · simp only [applySortBy, hsb, if_neg hin]
            exact List.Perm.refl _

theorem currency_not_others : ∀ s ∈ currency_fields,
    s ∉ timestamp_fields ∧ s ≠ "expiry" ∧ s ≠ "expiry_date" ∧ s ∉ price_fields := by decide

theorem contains_eq_false_of_not_mem {a : String} {l : List String} (h : a ∉ l) :
    l.contains a = false := by
  show List.elem a l = false
  rw [List.elem_eq_mem, decide_eq_false_iff_not]
  exact h

/-- When the empty-value guard and the three rules before the currency rule
all decline, `smart_format_value` is the currency rule followed by the
remaining cascade. -/
theorem sfv_currency_chain (key : String) (v : JValue)
    (hne : isEmptyish v = false)
    (ht : ruleTimestamp (pyLower key) v = none)
    (hee : ruleExpiry (pyLower key) v = none)
    (hp : rulePrice (pyLower key) v = none) :
    smart_format_value key v =
      match ruleCurrency (pyLower key) v with
      | some s => s
      | none => laterRulesAfterCurrency (pyLower key) v := by
  unfold smart_format_value laterRulesAfterCurrency
  simp only [hne, ht, hee, hp, Bool.false_eq_true, if_false]

/-- Claim C4: `sort_fields_by_priority` returns the priority-list entries
present in the input in priority order, followed by the remaining names in
ascending lexicographic order, and its output depends only on the input
set: any two duplicate-free inputs with the same members yield the same
order. -/
theorem C4_field_ordering (l₁ l₂ : List String) (h₁ : l₁.Nodup) (h₂ : l₂.Nodup)
    (hm : ∀ x, x ∈ l₁ ↔ x ∈ l₂) :
    sort_fields_by_priority l₁ = sort_fields_by_priority l₂
    ∧ sort_fields_by_priority l₁
        = priority_fields.filter (fun f => l₁.contains f)
          ++ List.insertionSort StrLe (l₁.filter fun f => !priority_fields.contains f)
    ∧ List.Sorted StrLe (List.insertionSort StrLe (l₁.filter fun f => !priority_fields.contains f))
    ∧ (List.insertionSort StrLe (l₁.filter fun f => !priority_fields.contains f)).Perm
        (l₁.filter fun f => !priority_fields.contains f) :=
  ⟨sfbp_congr l₁ l₂ h₁ h₂ hm, rfl, List.sorted_insertionSort _ _, List.perm_insertionSort _ _⟩

theorem C4_field_ordering_witness :
    sort_fields_by_priority ["zeta", "symbol", "alpha"]
      = sort_fields_by_priority ["alpha", "zeta", "symbol"] :=
  (C4_field_ordering ["zeta", "symbol", "alpha"] ["alpha", "zeta", "symbol"]
    (by decide) (by decide) (by intro x; simp only [List.mem_cons, List.not_mem_nil]; tauto)).1

/-- Claim C10: on a duplicate-free field list, `sort_fields_by_priority`
returns a permutation of its input — every input name appears exactly once
and no other name appears. -/
theorem C10_no_loss (l : List String) (h : l.Nodup) :
    (sort_fields_by_priority l).Perm l
    ∧ (∀ x ∈ l, List.count x (sort_fields_by_priority l) = 1)
    ∧ ∀ x, x ∉ l → x ∉ sort_fields_by_priority l := by
  have hp := sfbp_perm l h
  refine ⟨hp, fun x hx => ?_, fun x hx => ?_⟩
  · rw [hp.count_eq x]
    exact List.count_eq_one_of_mem h hx
  · rw [hp.mem_iff]
    exact hx

theorem C10_no_loss_witness :
    (sort_fields_by_priority ["b", "a"]).Perm ["b", "a"] :=
  (C10_no_loss ["b", "a"] (by decide)).1

/-- Claim C5: a response object with an `error` entry short-circuits to the
single-row `[["Error: " ++ message]]` table and raises nothing. -/
theorem C5_error_short_circuit (pf : String) (kvs : List (String × JValue))
    (e t m : String) (h : dictGet kvs "error" = some (.str m)) :
    process_api_response pf (.obj kvs) e t = .ok [["Error: " ++ m]] := by
  have hc := dictGet_some_contains kvs "error" _ h
  have h1 : pyContainsError (.obj kvs) = .ok true := by
    show Except.ok ((kvs.map Prod.fst).contains "error") = Except.ok true
    rw [hc]
  have h2 : pyIndexError (.obj kvs) = .ok (.str m) := by
    show Except.ok ((dictGet kvs "error").getD JValue.null) = Except.ok (.str m)
    rw [h]
    rfl
  simp [process_api_response, h1, h2, format_error, pyStr]

theorem C5_error_short_circuit_witness :
    process_api_response "auto" (.obj [("error", .str "HTTP Error 401: Unauthorized")]) "" ""
      = .ok [["Error: HTTP Error 401: Unauthorized"]] :=
  C5_error_short_circuit "auto" [("error", .str "HTTP Error 401: Unauthorized")] "" ""
    "HTTP Error 401: Unauthorized" rfl

/-- Claim C3 (code bug): the formatter can raise.  On the decoded JSON
response `{"data": [{"a": 1}, 5]}` the table path passes the
`isinstance(data[0], dict)` guard, the field-collection loop skips the
non-dict element, but the row loop calls `item.get` on the int `5` and the
resulting `AttributeError` propagates to the caller. -/
theorem C3_table_row_loop_raises :
    process_api_response "auto" (.obj [("data", .arr [.obj [("a", .int 1)], .int 5])]) "" ""
      = .error "AttributeError: 'int' object has no attribute 'get'" := by decide

/-- Claim C6 (corrected): under key-value format, the code accepts not only
objects and singleton object arrays but any non-empty array headed by an
object — it silently formats the first element; the two-element object
array the claim says must error instead renders its first record. -/
theorem C6_counterexample :
    process_api_response "key_value"
        (.obj [("data", .arr [.obj [("a", .int 1)], .obj [("b", .int 2)]])]) "" ""
      = .ok [["Unknown Data", "Value"], ["A", "1"]]
    ∧ [["Unknown Data", "Value"], ["A", "1"]]
        ≠ [["Invalid data format for key-value display"]] := ⟨by decide, by decide⟩

/-- Claim C6 as amended: `format_key_value_data` accepts a dict, or any
non-empty list whose first element is a dict (unwrapping to that first
element); every other shape draws the single format-error row. -/
theorem C6_key_value_acceptance (data : JValue) (et ct : String) :
    format_key_value_data data et ct =
      match kvAccepted data with
      | some d => format_key_value_data d et ct
      | none => [["Invalid data format for key-value display"]] := by
  cases data with
  | arr xs =>
      cases xs with
      | nil => rfl
      | cons x t => cases x <;> rfl
  | obj kvs => rfl
  | null => rfl
  | bool b => rfl
  | int n => rfl
  | float x => rfl
  | str s => rfl

/-- Claim C7 (corrected): the output is not a function of
`(response, endpoint, custom_title)` alone — it also reads the mutable
`ResponseConfig.preferred_format`; the same arguments under the two
configured formats produce different tables. -/
theorem C7_counterexample :
    process_api_response "auto"
        (.obj [("data", .arr [.obj [("x", .int 1)], .obj [("y", .int 2)]])]) "" ""
      ≠ process_api_response "key_value"
        (.obj [("data", .arr [.obj [("x", .int 1)], .obj [("y", .int 2)]])]) "" "" := by decide

/-- Claim C7 as amended: with the configured format included among the
inputs, formatting is deterministic — equal argument tuples give equal
results (the embedding is a pure function, so no call mutates `response`). -/
theorem C7_pure_given_config (pf : String) (r : JValue) (e t : String)
    (r' : JValue) (e' t' : String) (hr : r = r') (he : e = e') (ht : t = t') :
    process_api_response pf r e t = process_api_response pf r' e' t' := by
  subst hr; subst he; subst ht; rfl

theorem C7_pure_given_config_witness :
    process_api_response "auto" (.obj []) "" "" = process_api_response "auto" (.obj []) "" "" :=
  C7_pure_given_config "auto" (.obj []) "" "" (.obj []) "" "" rfl rfl rfl

/-- Claim C8 (corrected): the currency rule compares the signed value with
10000, not its magnitude: `-20000` has magnitude above the threshold yet is
rendered without separators. -/
theorem C8_counterexample :
    smart_format_value "payin" (.int (-20000)) = "-20000.00"
    ∧ "-20000.00" ≠ "-20,000.00" := ⟨by decide, by decide⟩

/-- Claim C8 as amended: for a currency field, a value accepted by `float`
is rendered with two decimals, with thousands separators exactly when the
signed value is at least 10000; a value `float` rejects falls through to
the later rules unchanged. -/
theorem C8_currency_formatting (key : String) (v : JValue)
    (hc : currency_fields.contains (pyLower key) = true)
    (hn : v ≠ JValue.null) (he : v ≠ JValue.str "") :
    smart_format_value key v =
      match toFloat? v with
      | some q => if PyNum.le ⟨10000, 1⟩ q then fmtComma2 q
                  else if !q.isZero then fmtFixed 2 q else "0.00"
      | none => laterRulesAfterCurrency (pyLower key) v := by
  have hmem : pyLower key ∈ currency_fields := by
    simpa [List.contains, List.elem_iff] using hc
  obtain ⟨ht, he1, he2, hp⟩ := currency_not_others _ hmem
  have hne : isEmptyish v = false := by
    cases v with
    | null => exact absurd rfl hn
    | str s =>
        simp only [isEmptyish, decide_eq_false_iff_not]
        intro hs
        exact he (by rw [hs])
    | bool b => rfl
    | int n => rfl
    | float x => rfl
    | arr xs => rfl
    | obj kvs => rfl
  have ht' : ruleTimestamp (pyLower key) v = none := by
    unfold ruleTimestamp
    rw [contains_eq_false_of_not_mem ht]
    rfl
  have hee' : ruleExpiry (pyLower key) v = none := by
    unfold ruleExpiry
    have hb : (decide (pyLower key = "expiry") || decide (pyLower key = "expiry_date")) = false := by
      simp [he1, he2]
    rw [hb]
    rfl
  have hp' : rulePrice (pyLower key) v = none := by
    unfold rulePrice
    rw [contains_eq_false_of_not_mem hp]
    rfl
  have hcur : ruleCurrency (pyLower key) v = (toFloat? v).map (fun q =>
      if PyNum.le ⟨10000, 1⟩ q then fmtComma2 q
      else if !q.isZero then fmtFixed 2 q else "0.00") := by
    unfold ruleCurrency
    rw [hc]
    rfl
  rw [sfv_currency_chain key v hne ht' hee' hp', hcur]
  rcases hf : toFloat? v with _ | q <;> rfl

theorem C8_currency_formatting_witness :
    smart_format_value "payin" (.int 20000) = "20,000.00" :=
  C8_currency_formatting "payin" (.int 20000) (by decide)
    (fun h => JValue.noConfusion h) (fun h => JValue.noConfusion h)

/-- Claim C9 (corrected): the title built from a schema `title_field` is
`"{value} ({exchange})"` — with a space before the parenthesis — not the
claimed `"{value}({exchange})"`. -/
theorem C9_counterexample :
    format_key_value_data (.obj [("symbol", .str "SBIN"), ("exchange", .str "NSE")]) "quotes" ""
      = [["SBIN (NSE)", "Value"], ["Symbol", "SBIN"], ["Exchange", "NSE"]]
    ∧ "SBIN (NSE)" ≠ "SBIN(NSE)" := ⟨by decide, by decide⟩

/-- Claim C9 as amended: the left header cell of a key-value table is the
custom title when given; else the schema's static title; else, when the
schema's `title_field` is present in the data, `"{value} ({exchange})"`
(bare value when the `exchange` entry is absent or falsy); else the
title-cased endpoint type followed by `" Data"` — whenever that computed
title is non-empty. -/
theorem C9_title (kvs : List (String × JValue)) (et ct : String)
    (h : specTitle kvs et ct ≠ "") :
    ∃ rest, format_key_value_data (.obj kvs) et ct
      = [specTitle kvs et ct, "Value"] :: rest := by
  refine ⟨(sort_fields_by_priority (kvs.map Prod.fst)).map
    (fun f => [get_display_label f, smart_format_value f ((dictGet kvs f).getD .null)]), ?_⟩
  simp only [format_key_value_data, format_key_value_obj]
  rw [show kv_title kvs et ct = specTitle kvs et ct from rfl, if_pos h]

theorem C9_title_witness :
    ∃ rest, format_key_value_data
        (.obj [("symbol", .str "SBIN"), ("exchange", .str "NSE")]) "quotes" ""
      = ["SBIN (NSE)", "Value"] :: rest :=
  C9_title [("symbol", .str "SBIN"), ("exchange", .str "NSE")] "quotes" "" (by decide)

/-- Claim C2: key-value formatting of a non-empty object yields
`1 + |fields|` rows, each of length 2: a `[title, "Value"]` header, then one
`[label, smart-formatted value]` row per field in priority order. -/
theorem C2_key_value_shape (kvs : List (String × JValue)) (et ct : String)
    (_hne : kvs ≠ []) (hnd : (kvs.map Prod.fst).Nodup) :
    ∃ t, format_key_value_data (.obj kvs) et ct
        = [t, "Value"] :: (sort_fields_by_priority (kvs.map Prod.fst)).map
            (fun f => [get_display_label f, smart_format_value f ((dictGet kvs f).getD .null)])
      ∧ (format_key_value_data (.obj kvs) et ct).length = 1 + kvs.length
      ∧ ∀ r ∈ format_key_value_data (.obj kvs) et ct, r.length = 2 := by
  have key : ∃ t, format_key_value_data (.obj kvs) et ct
      = [t, "Value"] :: (sort_fields_by_priority (kvs.map Prod.fst)).map
          (fun f => [get_display_label f, smart_format_value f ((dictGet kvs f).getD .null)]) := by
    by_cases h : kv_title kvs et ct ≠ ""
    · exact ⟨kv_title kvs et ct, by
        simp only [format_key_value_data, format_key_value_obj]
        rw [if_pos h]⟩
    · exact ⟨"Field", by
        simp only [format_key_value_data, format_key_value_obj]
        rw [if_neg h]⟩
  obtain ⟨t, ht⟩ := key
  refine ⟨t, ht, ?_, ?_⟩
  · rw [ht]
    simp only [List.length_cons, List.length_map]
    rw [sfbp_length _ hnd, List.length_map]
    omega
  · rw [ht]
    intro r hr
    rcases List.mem_cons.mp hr with h1 | h1
    · rw [h1]; rfl
    · obtain ⟨f, _, rfl⟩ := List.mem_map.mp h1
      rfl

theorem C2_key_value_shape_witness :
    (format_key_value_data (.obj [("a", .int 1)]) "x" "T").length = 2 := by
  obtain ⟨t, _, h2, _⟩ :=
    C2_key_value_shape [("a", .int 1)] "x" "T" (List.cons_ne_nil _ _) (by decide)
  exact h2

/-- Claim C1: table formatting of a non-empty list of objects yields a
header of display labels plus one row per element (permuted when the schema
sorts), every row as long as the union of distinct field names, and a field
missing from an element rendered as `""` in that element's row. -/
theorem C1_table_shape (items : List JValue) (et : String) (sch : Option Schema)
    (hne : items ≠ []) (hobj : ∀ it ∈ items, it.isObj = true) :
    ∃ body,
      format_table_data (.arr items) et sch
        = .ok ((sort_fields_by_priority (collectFields items)).map get_display_label :: body)
      ∧ body.Perm (items.map (tableRowOf (sort_fields_by_priority (collectFields items))))
      ∧ body.length = items.length
      ∧ (∀ r ∈ (sort_fields_by_priority (collectFields items)).map get_display_label :: body,
          r.length = (collectFields items).length)
      ∧ ∀ it ∈ items, ∀ (i : Nat) (f : String),
          (sort_fields_by_priority (collectFields items))[i]? = some f →
          f ∉ jKeys it →
          (tableRowOf (sort_fields_by_priority (collectFields items)) it)[i]? = some "" := by
  obtain ⟨x, rest, rfl⟩ : ∃ x rest, items = x :: rest := by
    cases items with
    | nil => exact absurd rfl hne
    | cons x rest => exact ⟨x, rest, rfl⟩
  have hx : x.isObj = true := hobj x (List.mem_cons_self x rest)
  have hbr := buildRows_ok (sort_fields_by_priority (collectFields (x :: rest))) (x :: rest) hobj
  have heq : format_table_data (.arr (x :: rest)) et sch
      = .ok ((sort_fields_by_priority (collectFields (x :: rest))).map get_display_label ::
          applySortBy (sort_fields_by_priority (collectFields (x :: rest))) sch
            ((x :: rest).map (tableRowOf (sort_fields_by_priority (collectFields (x :: rest)))))) := by
    simp only [format_table_data, hx, Bool.not_true, Bool.false_eq_true, if_false, hbr]
  have hperm := applySortBy_perm (sort_fields_by_priority (collectFields (x :: rest))) sch
    ((x :: rest).map (tableRowOf (sort_fields_by_priority (collectFields (x :: rest)))))
  set body := applySortBy (sort_fields_by_priority (collectFields (x :: rest))) sch
    ((x :: rest).map (tableRowOf (sort_fields_by_priority (collectFields (x :: rest))))) with hbody
  have hnodupf : (collectFields (x :: rest)).Nodup := List.nodup_dedup _
  have hordlen : (sort_fields_by_priority (collectFields (x :: rest))).length
      = (collectFields (x :: rest)).length := sfbp_length _ hnodupf
  refine ⟨body, heq, hperm, ?_, ?_, ?_⟩
  · rw [hperm.length_eq, List.length_map]
  · intro r hr
    rcases List.mem_cons.mp hr with h1 | h1
    · rw [h1, List.length_map]
      exact hordlen
    · have hrr : r ∈ (x :: rest).map (tableRowOf (sort_fields_by_priority (collectFields (x :: rest)))) :=
        hperm.mem_iff.mp h1
      obtain ⟨it, _, rfl⟩ := List.mem_map.mp hrr
      unfold tableRowOf
      rw [List.length_map]
      exact hordlen
  · intro it _ i f hgf hnf
    exact tableRowOf_missing _ it i f hgf hnf

theorem C1_table_shape_witness :
    ∃ body, format_table_data (.arr [.obj [("ltp", .int 5)], .obj [("zz", .str "q")]]) "" none
        = .ok ((sort_fields_by_priority
            (collectFields [.obj [("ltp", .int 5)], .obj [("zz", .str "q")]])).map get_display_label
          :: body)
      ∧ body.length = 2 := by
  obtain ⟨body, h1, _, h3, _, _⟩ :=
    C1_table_shape [.obj [("ltp", .int 5)], .obj [("zz", .str "q")]] "" none
      (List.cons_ne_nil _ _) (by decide)
  exact ⟨body, h1, h3⟩

-- END OF PART 7
